import Mathlib

/-!
Shallow embedding of `src/app/src/app.py`: a Flask service with a
PostgreSQL connectivity probe and six JSON endpoints.

External effects are modelled explicitly:
  * the outcome of `psycopg2.connect` is a `ConnectResult` (either a live
    connection or the raised error message);
  * a live connection `Conn` is an oracle giving the outcome of each SQL
    query the code can run on it (`Except` models a raised exception,
    `Option` models `fetchone` returning `None` or a row);
  * `datetime.utcnow()` is an explicit `DateTime` argument;
  * `os.getenv` values are explicit string arguments;
  * the `psutil` import in `/api/metrics` is a `PsutilOutcome`.

JSON bodies are modelled by the inductive `Json`; an HTTP result is a
`Response` (body plus status code).
-/

namespace App

/-- JSON values, as produced by Flask's `jsonify`. -/
inductive Json where
  | str (s : String)
  | jbool (b : Bool)
  | num (x : Float)
  | null
  | obj (fields : List (String × Json))

/-- Association lookup in a list of JSON object fields. -/
def jlookup : List (String × Json) → String → Option Json
  | [], _ => none
  | (k, v) :: rest, key => if k = key then some v else jlookup rest key

/-- Field lookup on a JSON value: `none` unless an object with the key. -/
def Json.lookup (j : Json) (key : String) : Option Json :=
  match j with
  | .obj fields => jlookup fields key
  | _ => none

/-- An HTTP response: JSON body plus status code (Flask returns 200 when
no code is given). -/
structure Response where
  body : Json
  code : Nat

/-- A naive `datetime` value, as returned by `datetime.utcnow()`. -/
structure DateTime where
  year : Nat
  month : Nat
  day : Nat
  hour : Nat
  minute : Nat
  second : Nat
  microsecond : Nat

/-- The decimal digit character for `n % 10`. -/
def digitChar (n : Nat) : Char :=
  match n % 10 with
  | 0 => '0'
  | 1 => '1'
  | 2 => '2'
  | 3 => '3'
  | 4 => '4'
  | 5 => '5'
  | 6 => '6'
  | 7 => '7'
  | 8 => '8'
  | _ => '9'

/-- Decimal digits of a natural number, most significant first. -/
def natChars (n : Nat) : List Char :=
  if _h : n < 10 then [digitChar n]
  else natChars (n / 10) ++ [digitChar n]
termination_by n
decreasing_by exact Nat.div_lt_self (by omega) (by omega)

/-- Zero-pad the decimal digits of `n` to width `w`
(Python `%0wd` formatting). -/
def padChars (w n : Nat) : List Char :=
  List.replicate (w - (natChars n).length) '0' ++ natChars n

/-- Characters of Python's `datetime.isoformat()` on a naive datetime:
`YYYY-MM-DDTHH:MM:SS`, with `.ffffff` appended only when the microsecond
field is nonzero, and no timezone offset. -/
def DateTime.isoformatChars (d : DateTime) : List Char :=
  List.flatten
    [padChars 4 d.year, ['-'], padChars 2 d.month, ['-'], padChars 2 d.day,
     ['T'], padChars 2 d.hour, [':'], padChars 2 d.minute,
     [':'], padChars 2 d.second,
     if d.microsecond = 0 then [] else '.' :: padChars 6 d.microsecond]

/-- Python's `datetime.isoformat()` on a naive datetime. -/
def DateTime.isoformat (d : DateTime) : String :=
  ⟨d.isoformatChars⟩

/-- A live database connection, as an oracle for the two SQL texts the
application ever executes.  `Except.error e` models the query raising an
exception with message `e`; inside `Except.ok`, the `Option` is the value
returned by `cursor.fetchone()` (`none` models a `None` result). -/
structure Conn where
  /-- Outcome of `cur.execute('SELECT version();')` followed by
  `cur.fetchone()`; a row `(s,)` is `some s`. -/
  versionQuery : Except String (Option String)
  /-- Outcome of `cur.execute('SELECT current_timestamp, version();')`
  followed by `cur.fetchone()`; a row is `(timestamp, version)`, each
  component itself optional (Python truthiness on `result[0]`,
  `result[1]`).  The timestamp is modelled by its `isoformat()` string. -/
  tsVersionQuery : Except String (Option (Option String × Option String))

/-- Outcome of `psycopg2.connect(...)`: a connection, or the raised
error's message. -/
inductive ConnectResult where
  | success (c : Conn)
  | failure (errMsg : String)

/-- `get_db_connection` (app.py lines 28-41): returns the connection on
success; catches any exception and returns `None`. -/
def get_db_connection (w : ConnectResult) : Option Conn :=
  match w with
  | .success c => some c
  | .failure _ => none

/-- Execution trace of the `try` block of `test_db_connection`
(app.py lines 45-54): the block's outcome (`Except.error` models an
exception propagating out of the block), whether `conn.close()` was
executed, and the SQL texts passed to `cur.execute`. -/
structure ProbeTrace where
  result : Except String (Bool × String)
  closed : Bool
  executed : List String

/-- The `try` block of `test_db_connection` (app.py lines 45-54).
If a connection is obtained, `SELECT version();` is executed inside
`with conn.cursor() as cur`; on success `conn.close()` runs and the
result is `(True, version[0] if version else "Unknown")`.  If the query
raises, the `with` statement closes only the cursor, the exception
propagates, and the `conn.close()` on line 52 is skipped.  If no
connection was obtained the block returns `(False, "No connection")`. -/
def test_db_connection_try (w : ConnectResult) : ProbeTrace :=
  match get_db_connection w with
  | some c =>
    match c.versionQuery with
    | .ok version =>
        { result := .ok (true, version.getD "Unknown")
          closed := true
          executed := ["SELECT version();"] }
    | .error e =>
        { result := .error e
          closed := false
          executed := ["SELECT version();"] }
  | none =>
      { result := .ok (false, "No connection")
        closed := false
        executed := [] }

/-- `test_db_connection` (app.py lines 43-57): the `try` block above with
`except Exception as e: return False, str(e)` wrapped around it. -/
def test_db_connection (w : ConnectResult) : Bool × String :=
  match (test_db_connection_try w).result with
  | .ok r => r
  | .error e => (false, e)

/-- `health_check`, route `GET /healthz` (app.py lines 59-87).
`probe` is the outcome of the call `test_db_connection()` inside the
`try` block: `.ok (db_healthy, db_info)` when it returns normally,
`.error e` when the call (or anything else in the block) raises
unexpectedly, which lands in the `except` branch. -/
def health_check (probe : Except String (Bool × String)) (now : DateTime)
    (env : String) : Response :=
  match probe with
  | .ok (db_healthy, db_info) =>
      { body := .obj
          [("status", .str (if db_healthy then "healthy" else "unhealthy")),
           ("timestamp", .str now.isoformat),
           ("environment", .str env),
           ("database", .obj
              [("connected", .jbool db_healthy),
               ("info", .str db_info)]),
           ("version", .str "1.0.0")]
        code := if db_healthy then 200 else 503 }
  | .error e =>
      { body := .obj
          [("status", .str "unhealthy"),
           ("timestamp", .str now.isoformat),
           ("error", .str e)]
        code := 503 }

/-- `root`, route `GET /` (app.py lines 89-103): static metadata plus the
endpoints directory; Flask returns code 200. -/
def root (now : DateTime) (env : String) : Response :=
  { body := .obj
      [("message", .str "AWS Cloud Infrastructure Automation Demo"),
       ("description",
        .str "A production-grade AWS infrastructure using Terraform and CloudFormation"),
       ("timestamp", .str now.isoformat),
       ("environment", .str env),
       ("version", .str "1.0.0"),
       ("endpoints", .obj
          [("health", .str "/healthz"),
           ("status", .str "/api/status"),
           ("info", .str "/api/info")])]
    code := 200 }

/-- `api_status`, route `GET /api/status` (app.py lines 105-125).
`probe` is the outcome of the `test_db_connection()` call as in
`health_check`.  Both normal outcomes return with no explicit status
code, so Flask uses 200; the `except` branch returns 500. -/
def api_status (probe : Except String (Bool × String)) (now : DateTime)
    (env : String) : Response :=
  match probe with
  | .ok (db_healthy, _) =>
      { body := .obj
          [("status", .str (if db_healthy then "operational" else "degraded")),
           ("timestamp", .str now.isoformat),
           ("environment", .str env),
           ("database", .str (if db_healthy then "connected" else "disconnected")),
           ("uptime", .str "running")]
        code := 200 }
  | .error e =>
      { body := .obj
          [("status", .str "error"),
           ("timestamp", .str now.isoformat),
           ("error", .str e)]
        code := 500 }

/-- `api_info`, route `GET /api/info` (app.py lines 127-138): static and
environment metadata, no database access. -/
def api_info (now : DateTime) (pyVersion env dbHost dbName : String) :
    Response :=
  { body := .obj
      [("application", .str "AWS Cloud Infrastructure Demo"),
       ("framework", .str "Flask"),
       ("python_version", .str pyVersion),
       ("environment", .str env),
       ("database_host", .str dbHost),
       ("database_name", .str dbName),
       ("timestamp", .str now.isoformat)]
    code := 200 }

/-- The body returned by the `except Exception` branch of `db_test`
(app.py lines 166-172). -/
def db_test_error_body (e : String) : Response :=
  { body := .obj
      [("status", .str "error"),
       ("database", .str "error"),
       ("message", .str e)]
    code := 500 }

/-- `db_test`, route `GET /api/db/test` (app.py lines 140-172).
With a connection, runs `SELECT current_timestamp, version();` and reads
`result = cur.fetchone()`.  When a row comes back, the 200 body echoes
`result[0].isoformat() if result[0] else None` and
`result[1] if result[1] else 'Unknown'`; none of its bodies carry
`datetime.utcnow()`.  When `fetchone` returns `None`, `result[0]` raises
a `TypeError` (message modelled as Python prints it), caught by the
`except` branch.  When the query raises, the `except` branch returns its
message.  With no connection, a fixed 500 body is returned. -/
def db_test (w : ConnectResult) : Response :=
  match get_db_connection w with
  | some c =>
    match c.tsVersionQuery with
    | .ok (some (ts, ver)) =>
        { body := .obj
            [("status", .str "success"),
             ("database", .str "connected"),
             ("timestamp", match ts with | some t => .str t | none => .null),
             ("version", .str (ver.getD "Unknown")),
             ("message", .str "Database connection and query successful")]
          code := 200 }
    | .ok none =>
        db_test_error_body "TypeError: NoneType object is not subscriptable"
    | .error e => db_test_error_body e
  | none =>
      { body := .obj
          [("status", .str "error"),
           ("database", .str "disconnected"),
           ("message", .str "Could not establish database connection")]
        code := 500 }

/-- CPU, memory and disk utilisation percentages from `psutil`. -/
structure SysStats where
  cpu : Float
  mem : Float
  disk : Float

/-- Outcome of the `import psutil` and stats collection inside
`metrics`: the collected stats, an `ImportError` (psutil absent), or an
unexpected exception with message `e`. -/
inductive PsutilOutcome where
  | available (s : SysStats)
  | unavailable
  | fault (e : String)

/-- `metrics`, route `GET /api/metrics` (app.py lines 174-202).
Stats available: 200 with the percentages.  `ImportError`: 200 with a
message noting unavailability.  Any other exception: 500 with the
error text. -/
def metrics (p : PsutilOutcome) (now : DateTime) (env : String) : Response :=
  match p with
  | .available s =>
      { body := .obj
          [("timestamp", .str now.isoformat),
           ("system", .obj
              [("cpu_percent", .num s.cpu),
               ("memory_percent", .num s.mem),
               ("disk_percent", .num s.disk)]),
           ("environment", .str env)]
        code := 200 }
  | .unavailable =>
      { body := .obj
          [("timestamp", .str now.isoformat),
           ("message", .str "psutil not available for system metrics"),
           ("environment", .str env)]
        code := 200 }
  | .fault e =>
      { body := .obj
          [("timestamp", .str now.isoformat),
           ("error", .str e)]
        code := 500 }

/-- `not_found`, the 404 error handler (app.py lines 204-211). -/
def not_found (now : DateTime) : Response :=
  { body := .obj
      [("error", .str "Not Found"),
       ("message", .str "The requested resource was not found"),
       ("timestamp", .str now.isoformat)]
    code := 404 }

/-- `internal_error`, the 500 error handler (app.py lines 213-221). -/
def internal_error (now : DateTime) : Response :=
  { body := .obj
      [("error", .str "Internal Server Error"),
       ("message", .str "An internal server error occurred"),
       ("timestamp", .str now.isoformat)]
    code := 500 }

/-! ### Character-level facts about the naive `isoformat` string -/

theorem digitChar_isDigit (n : Nat) : (digitChar n).isDigit = true := by
  unfold digitChar
  split <;> decide

theorem natChars_isDigit (n : Nat) : ∀ c ∈ natChars n, c.isDigit = true := by
  induction n using Nat.strong_induction_on with
  | _ n ih =>
    intro c hc
    unfold natChars at hc
    split at hc
    · simp only [List.mem_singleton] at hc
      exact hc ▸ digitChar_isDigit n
    · rw [List.mem_append] at hc
      rcases hc with h | h
      · exact ih (n / 10) (Nat.div_lt_self (by omega) (by omega)) c h
      · simp only [List.mem_singleton] at h
        exact h ▸ digitChar_isDigit n

theorem padChars_isDigit (w n : Nat) : ∀ c ∈ padChars w n, c.isDigit = true := by
  intro c hc
  rw [padChars, List.mem_append] at hc
  rcases hc with h | h
  · rw [List.mem_replicate] at h
    rw [h.2]
    decide
  · exact natChars_isDigit n c h

theorem isoformatChars_mem (d : DateTime) :
    ∀ c ∈ d.isoformatChars,
      c.isDigit = true ∨ c = '-' ∨ c = ':' ∨ c = 'T' ∨ c = '.' := by
  intro c hc
  unfold DateTime.isoformatChars at hc
  rw [List.mem_flatten] at hc
  obtain ⟨l, hl, hcl⟩ := hc
  fin_cases hl
  all_goals first
    | exact Or.inl (padChars_isDigit _ _ c hcl)
    | (simp only [List.mem_singleton] at hcl; subst hcl; simp)
    | skip
  -- remaining case: the optional fractional-seconds suffix
  split at hcl
  · simp at hcl
  · simp only [List.mem_cons] at hcl
    rcases hcl with h | h
    · subst h; simp
    · exact Or.inl (padChars_isDigit _ _ c h)

theorem isoformat_no_offset_suffix (d : DateTime) :
    'Z' ∉ d.isoformat.data ∧ '+' ∉ d.isoformat.data := by
  constructor <;> intro hmem <;>
    rcases isoformatChars_mem d _ hmem with h | h | h | h | h <;>
      revert h <;> decide

/-! ### Claim theorems -/

/-- C1: `GET /healthz` maps a probe result of `ok = true` to HTTP 200 with
`status = "healthy"`; `ok = false` to HTTP 503 with `status = "unhealthy"`;
and an unexpected exception raised during the handler to HTTP 503 with
`status = "unhealthy"` and an `error` field carrying the fault text. -/
theorem healthz_status_contract :
    (∀ (info : String) (now : DateTime) (env : String),
        (health_check (.ok (true, info)) now env).code = 200 ∧
        (health_check (.ok (true, info)) now env).body.lookup "status"
          = some (.str "healthy")) ∧
    (∀ (info : String) (now : DateTime) (env : String),
        (health_check (.ok (false, info)) now env).code = 503 ∧
        (health_check (.ok (false, info)) now env).body.lookup "status"
          = some (.str "unhealthy")) ∧
    (∀ (e : String) (now : DateTime) (env : String),
        (health_check (.error e) now env).code = 503 ∧
        (health_check (.error e) now env).body.lookup "status"
          = some (.str "unhealthy") ∧
        (health_check (.error e) now env).body.lookup "error"
          = some (.str e)) :=
  ⟨fun _ _ _ => ⟨rfl, rfl⟩, fun _ _ _ => ⟨rfl, rfl⟩,
   fun _ _ _ => ⟨rfl, rfl, rfl⟩⟩

/-- C2: `GET /api/status` maps `ok = true` to HTTP 200 with
`status = "operational"`, `ok = false` still to HTTP 200 with
`status = "degraded"`, and only an unexpected exception to HTTP 500 with
`status = "error"`; in particular every normally returned probe outcome
gives status code 200. -/
theorem api_status_contract :
    (∀ (info : String) (now : DateTime) (env : String),
        (api_status (.ok (true, info)) now env).code = 200 ∧
        (api_status (.ok (true, info)) now env).body.lookup "status"
          = some (.str "operational")) ∧
    (∀ (info : String) (now : DateTime) (env : String),
        (api_status (.ok (false, info)) now env).code = 200 ∧
        (api_status (.ok (false, info)) now env).body.lookup "status"
          = some (.str "degraded")) ∧
    (∀ (e : String) (now : DateTime) (env : String),
        (api_status (.error e) now env).code = 500 ∧
        (api_status (.error e) now env).body.lookup "status"
          = some (.str "error")) ∧
    (∀ (r : Bool × String) (now : DateTime) (env : String),
        (api_status (.ok r) now env).code = 200) := by
  refine ⟨fun _ _ _ => ⟨rfl, rfl⟩, fun _ _ _ => ⟨rfl, rfl⟩,
    fun _ _ _ => ⟨rfl, rfl⟩, fun r now env => ?_⟩
  rcases r with ⟨b, s⟩
  rfl

/-- C3: every failure of the database probe yields a normal
`(false, detail)` return — `detail = "No connection"` when the connection
could not be obtained, `detail` = the exception text when the query
raises — and any exception escaping the `try` block is caught by the
`except` clause and converted to `(false, str e)`, so no exception
propagates out of `test_db_connection`. -/
theorem test_db_connection_failure_contract :
    (∀ (e : String), test_db_connection (.failure e)
        = (false, "No connection")) ∧
    (∀ (e : String) (tq : Except String (Option (Option String × Option String))),
        test_db_connection (.success ⟨.error e, tq⟩) = (false, e)) ∧
    (∀ (w : ConnectResult) (e : String),
        (test_db_connection_try w).result = .error e →
        test_db_connection w = (false, e)) := by
  refine ⟨fun _ => rfl, fun _ _ => rfl, fun w e h => ?_⟩
  unfold test_db_connection
  rw [h]

/-- Witness for C3 at a concrete world: a connection whose version query
raises is converted to a normal `(false, message)` result. -/
theorem test_db_connection_failure_contract_witness :
    test_db_connection (.success ⟨.error "fault", .ok none⟩)
      = (false, "fault") :=
  test_db_connection_failure_contract.2.2
    (.success ⟨.error "fault", .ok none⟩) "fault" rfl

/-- A concrete connection whose `SELECT version();` query raises after
the connection was successfully opened. -/
def leakConn : Conn :=
  ⟨.error "server closed the connection unexpectedly", .ok none⟩

/-- C4 (code evaluated at the failing input): a connection is obtained
(`get_db_connection` returns it), the version query raises, the `except`
branch returns `(false, message)` — and `conn.close()` was never
executed, so the opened connection is not released on this path. -/
theorem probe_leaks_connection_on_query_error :
    get_db_connection (.success leakConn) = some leakConn ∧
    (test_db_connection_try (.success leakConn)).closed = false ∧
    test_db_connection (.success leakConn)
      = (false, "server closed the connection unexpectedly") :=
  ⟨rfl, rfl, rfl⟩

/-- A concrete connection on which the probe succeeds with a version row. -/
def okConn : Conn :=
  ⟨.ok (some "PostgreSQL 15.4 on x86_64-pc-linux-gnu"), .ok none⟩

/-- C5 counterexample: on a successful probe, `test_db_connection`
executes only `SELECT version();`; no current-timestamp query is ever
passed to `cur.execute`, contradicting the claim that the probe executes
both an identification query and a current-timestamp query. -/
theorem probe_executes_no_timestamp_query :
    (test_db_connection_try (.success okConn)).executed
      = ["SELECT version();"] ∧
    "SELECT current_timestamp, version();"
      ∉ (test_db_connection_try (.success okConn)).executed := by
  exact ⟨rfl, by decide⟩

/-- C5 amended: on success the probe executes exactly one query — the
version identification query `SELECT version();` — and returns
`(true, detail)` with `detail` equal to the version string from the
returned row; the current-timestamp query belongs to `/api/db/test`,
not to the probe. -/
theorem probe_success_contract :
    ∀ (v : String) (tq : Except String (Option (Option String × Option String))),
      (test_db_connection_try (.success ⟨.ok (some v), tq⟩)).executed
        = ["SELECT version();"] ∧
      test_db_connection (.success ⟨.ok (some v), tq⟩) = (true, v) :=
  fun _ _ => ⟨rfl, rfl⟩

/-- C6 counterexample: when `GET /api/db/test` cannot obtain a database
connection, its 500 response body contains no `timestamp` field at all,
so not every endpoint outcome carries a timestamp. -/
theorem db_test_body_missing_timestamp :
    (db_test (.failure "connection refused")).body.lookup "timestamp"
      = none :=
  rfl

/-- C6 amended: every endpoint response except those of `/api/db/test`
carries a `timestamp` field equal to `datetime.utcnow().isoformat()`,
which is naive ISO-8601 with no timezone-offset suffix (no `Z`, no `+`);
`/api/db/test` echoes the database-reported timestamp (JSON null when the
column is falsy) in its success body and carries no timestamp field in
its no-connection and exception bodies. -/
theorem timestamp_field_contract :
    (∀ (b : Bool) (info : String) (now : DateTime) (env : String),
        (health_check (.ok (b, info)) now env).body.lookup "timestamp"
          = some (.str now.isoformat)) ∧
    (∀ (e : String) (now : DateTime) (env : String),
        (health_check (.error e) now env).body.lookup "timestamp"
          = some (.str now.isoformat)) ∧
    (∀ (now : DateTime) (env : String),
        (root now env).body.lookup "timestamp"
          = some (.str now.isoformat)) ∧
    (∀ (b : Bool) (info : String) (now : DateTime) (env : String),
        (api_status (.ok (b, info)) now env).body.lookup "timestamp"
          = some (.str now.isoformat)) ∧
    (∀ (e : String) (now : DateTime) (env : String),
        (api_status (.error e) now env).body.lookup "timestamp"
          = some (.str now.isoformat)) ∧
    (∀ (now : DateTime) (py env h n : String),
        (api_info now py env h n).body.lookup "timestamp"
          = some (.str now.isoformat)) ∧
    (∀ (s : SysStats) (now : DateTime) (env : String),
        (metrics (.available s) now env).body.lookup "timestamp"
          = some (.str now.isoformat)) ∧
    (∀ (now : DateTime) (env : String),
        (metrics .unavailable now env).body.lookup "timestamp"
          = some (.str now.isoformat)) ∧
    (∀ (e : String) (now : DateTime) (env : String),
        (metrics (.fault e) now env).body.lookup "timestamp"
          = some (.str now.isoformat)) ∧
    (∀ (now : DateTime),
        (not_found now).body.lookup "timestamp"
          = some (.str now.isoformat)) ∧
    (∀ (now : DateTime),
        (internal_error now).body.lookup "timestamp"
          = some (.str now.isoformat)) ∧
    (∀ (vq : Except String (Option String)) (t : String) (ver : Option String),
        (db_test (.success ⟨vq, .ok (some (some t, ver))⟩)).body.lookup
          "timestamp" = some (.str t)) ∧
    (∀ (vq : Except String (Option String)) (ver : Option String),
        (db_test (.success ⟨vq, .ok (some (none, ver))⟩)).body.lookup
          "timestamp" = some .null) ∧
    (∀ (e : String),
        (db_test (.failure e)).body.lookup "timestamp" = none) ∧
    (∀ (vq : Except String (Option String)) (e : String),
        (db_test (.success ⟨vq, .error e⟩)).body.lookup "timestamp"
          = none) ∧
    (∀ (vq : Except String (Option String)),
        (db_test (.success ⟨vq, .ok none⟩)).body.lookup "timestamp"
          = none) ∧
    (∀ (d : DateTime), 'Z' ∉ d.isoformat.data ∧ '+' ∉ d.isoformat.data) :=
  ⟨fun _ _ _ _ => rfl, fun _ _ _ => rfl, fun _ _ => rfl,
   fun _ _ _ _ => rfl, fun _ _ _ => rfl, fun _ _ _ _ _ => rfl,
   fun _ _ _ => rfl, fun _ _ => rfl, fun _ _ _ => rfl,
   fun _ => rfl, fun _ => rfl,
   fun _ _ _ => rfl, fun _ _ => rfl, fun _ => rfl, fun _ _ => rfl,
   fun _ => rfl,
   fun d => isoformat_no_offset_suffix d⟩

/-- C7: `GET /api/db/test` returns 200 with the database's current
timestamp and version echoed exactly when the query yields a row with
both values; 500 with `status = "error"` when no connection could be
established; and 500 when an unexpected exception is raised. -/
theorem db_test_contract :
    (∀ (vq : Except String (Option String)) (t v : String),
        (db_test (.success ⟨vq, .ok (some (some t, some v))⟩)).code = 200 ∧
        (db_test (.success ⟨vq, .ok (some (some t, some v))⟩)).body.lookup
          "timestamp" = some (.str t) ∧
        (db_test (.success ⟨vq, .ok (some (some t, some v))⟩)).body.lookup
          "version" = some (.str v)) ∧
    (∀ (e : String),
        (db_test (.failure e)).code = 500 ∧
        (db_test (.failure e)).body.lookup "status"
          = some (.str "error")) ∧
    (∀ (vq : Except String (Option String)) (e : String),
        (db_test (.success ⟨vq, .error e⟩)).code = 500 ∧
        (db_test (.success ⟨vq, .error e⟩)).body.lookup "status"
          = some (.str "error")) :=
  ⟨fun _ _ _ => ⟨rfl, rfl, rfl⟩, fun _ => ⟨rfl, rfl⟩,
   fun _ _ => ⟨rfl, rfl⟩⟩

/-- C8: `GET /api/metrics` returns 200 (not 500) with an explanatory
`message` field when psutil is unavailable; stats being available also
gives 200; only an unexpected exception during collection gives 500. -/
theorem metrics_contract :
    (∀ (now : DateTime) (env : String),
        (metrics .unavailable now env).code = 200 ∧
        (metrics .unavailable now env).body.lookup "message"
          = some (.str "psutil not available for system metrics")) ∧
    (∀ (s : SysStats) (now : DateTime) (env : String),
        (metrics (.available s) now env).code = 200) ∧
    (∀ (e : String) (now : DateTime) (env : String),
        (metrics (.fault e) now env).code = 500) :=
  ⟨fun _ _ => ⟨rfl, rfl⟩, fun _ _ _ => rfl, fun _ _ _ => rfl⟩

/-- C9: when the version query returns no row the probe yields
`(true, "Unknown")`, and when no connection can be obtained it yields
`(false, "No connection")` — the fixed string, independent of the
underlying connection error message. -/
theorem probe_placeholder_details :
    (∀ (tq : Except String (Option (Option String × Option String))),
        test_db_connection (.success ⟨.ok none, tq⟩) = (true, "Unknown")) ∧
    (∀ (e : String),
        test_db_connection (.failure e) = (false, "No connection")) :=
  ⟨fun _ => rfl, fun _ => rfl⟩

/-- C10: the `endpoints` directory returned by `GET /` has exactly the
three entries `/healthz`, `/api/status` and `/api/info`, and none of its
values is `/api/db/test` or `/api/metrics`. -/
theorem root_endpoints_directory :
    ∀ (now : DateTime) (env : String),
      (root now env).body.lookup "endpoints"
        = some (.obj
            [("health", .str "/healthz"),
             ("status", .str "/api/status"),
             ("info", .str "/api/info")]) ∧
      ∀ (fields : List (String × Json)),
        (root now env).body.lookup "endpoints" = some (.obj fields) →
        fields.length = 3 ∧
        ∀ p ∈ fields,
          p.2 ≠ Json.str "/api/db/test" ∧ p.2 ≠ Json.str "/api/metrics" := by
  intro now env
  refine ⟨rfl, fun fields h => ?_⟩
  rw [show (root now env).body.lookup "endpoints"
        = some (.obj
            [("health", .str "/healthz"),
             ("status", .str "/api/status"),
             ("info", .str "/api/info")]) from rfl] at h
  obtain rfl : fields
      = [("health", Json.str "/healthz"),
         ("status", Json.str "/api/status"),
         ("info", Json.str "/api/info")] := by
    injection h with h
    injection h with h
    exact h.symm
  refine ⟨rfl, fun p hp => ?_⟩
  fin_cases hp <;> exact ⟨by simp only [ne_eq, Json.str.injEq]; decide,
    by simp only [ne_eq, Json.str.injEq]; decide⟩

/-- A concrete request time used to instantiate theorems. -/
def sampleNow : DateTime := ⟨2024, 1, 1, 0, 0, 0, 0⟩

/-- Witness for C10 at a concrete request: the directory is the exact
three-entry object, its length is 3, and its first entry's value is not
one of the unlisted endpoint paths. -/
theorem root_endpoints_directory_witness :
    (root sampleNow "production").body.lookup "endpoints"
      = some (.obj
          [("health", .str "/healthz"),
           ("status", .str "/api/status"),
           ("info", .str "/api/info")]) ∧
    ([("health", Json.str "/healthz"),
      ("status", Json.str "/api/status"),
      ("info", Json.str "/api/info")] :
        List (String × Json)).length = 3 ∧
    (("health", Json.str "/healthz") : String × Json).2
        ≠ Json.str "/api/db/test" ∧
    (("health", Json.str "/healthz") : String × Json).2
        ≠ Json.str "/api/metrics" := by
  have h := root_endpoints_directory sampleNow "production"
  have h2 := h.2 _ h.1
  exact ⟨h.1, h2.1,
    h2.2 ("health", Json.str "/healthz") (List.mem_cons_self _ _)⟩

end App
